import Mathlib

/-!
Verification of the redpanda-connect slice: the ollama chat processor
(`internal/impl/ollama/chat_processor.go`, package `ollama`) and the
enterprise CLI orchestrator (same file, package `cli`).

Modelling conventions:
- A Go `string` is its byte sequence (`GoStr := List Nat`); Go `string(b)`
  conversion from `[]byte` is the identity on bytes, and Go string literals
  used as roles are modelled by the inductive `Role`.
- The external ollama client (`api.Client.Chat`) is a parameter: given a
  request it delivers a list of response chunks to the callback and then
  returns an optional error.
- The external engine run (`service.RunCLIToCode`) is a parameter
  (`RunOutcome`); the orchestrator body after the run is embedded as the
  trace of observable calls it performs (`Event`).
-/

namespace Ollama

/-- Go strings and byte slices, modelled as byte sequences. -/
abbrev GoStr := List Nat

/-- Byte range test `lo <= b <= hi`. -/
def inRange (lo hi b : Nat) : Bool := decide (lo ≤ b) && decide (b ≤ hi)

/-- Continuation byte test `0x80 <= b <= 0xBF`, the default accept range of
Go `unicode/utf8`. -/
def isCont (b : Nat) : Bool := inRange 0x80 0xBF b

/-- Go `utf8.Valid` on a byte sequence: first-byte classes and the special
second-byte accept ranges for `0xE0`, `0xED`, `0xF0`, `0xF4`, exactly as in
`unicode/utf8` (`first` table and `acceptRanges`). -/
def utf8Valid : GoStr → Bool
  | [] => true
  | b :: rest =>
    if b ≤ 0x7F then utf8Valid rest
    else if b < 0xC2 then false
    else if b ≤ 0xDF then
      match rest with
      | [] => false
      | c1 :: r => isCont c1 && utf8Valid r
    else if b ≤ 0xEF then
      match rest with
      | c1 :: c2 :: r =>
        (if b = 0xE0 then inRange 0xA0 0xBF c1
         else if b = 0xED then inRange 0x80 0x9F c1
         else isCont c1) && isCont c2 && utf8Valid r
      | _ => false
    else if b ≤ 0xF4 then
      match rest with
      | c1 :: c2 :: c3 :: r =>
        (if b = 0xF0 then inRange 0x90 0xBF c1
         else if b = 0xF4 then inRange 0x80 0x8F c1
         else isCont c1) && isCont c2 && isCont c3 && utf8Valid r
      | _ => false
    else false

/-- A benthos message: byte payload plus metadata key/value pairs. -/
structure Message where
  payload : GoStr
  metadata : List (String × GoStr)
deriving DecidableEq

/-- `service.Message.Copy`: a fresh message with the same payload and
metadata (value semantics in the embedding). -/
def Message.copy (m : Message) : Message := m

/-- `service.Message.SetBytes`: replace the payload, keep metadata. -/
def Message.setBytes (m : Message) (b : GoStr) : Message :=
  { m with payload := b }

/-- `service.Message.AsBytes`: the raw payload bytes (the fallible cases of
the benthos API concern structured content, absent from this model). -/
def Message.asBytes (m : Message) : Except String GoStr := .ok m.payload

/-- Role strings used by `generateCompletion` ("system", "user"). -/
inductive Role where
  | system
  | user
deriving DecidableEq

/-- `api.Message`: role/content pair of a chat request. -/
structure ApiMessage where
  role : Role
  content : GoStr
deriving DecidableEq

/-- `api.ChatRequest`: model name, ordered messages, optional stream flag
(Go `*bool`, `none` when the pointer is nil). -/
structure ChatRequest where
  model : GoStr
  messages : List ApiMessage
  stream : Option Bool

/-- `api.ChatResponse`, restricted to the field the processor reads
(`resp.Message.Content`). -/
structure ChatResponse where
  messageContent : GoStr

/-- Behaviour of `api.Client.Chat` for one request: the chunks it delivers
to the callback, in order, followed by the error it returns (`none` = nil). -/
abbrev ChatClient := ChatRequest → List ChatResponse × Option String

/-- `ollamaCompletionProcessor`: the model name from the base processor and
the two optional interpolated-string templates, each modelled by its
evaluation function `TryString` (which may fail). -/
structure OllamaCompletionProcessor where
  model : GoStr
  userPrompt : Option (Message → Except String GoStr)
  systemPrompt : Option (Message → Except String GoStr)

/-- The request built by `generateCompletion` before calling the client:
a system entry appended only when the system prompt is non-empty, then the
user entry, with the stream flag set to false. -/
def buildChatRequest (o : OllamaCompletionProcessor)
    (systemPrompt userPrompt : GoStr) : ChatRequest :=
  let msgs : List ApiMessage :=
    (if systemPrompt ≠ [] then [⟨Role.system, systemPrompt⟩] else []) ++
      [⟨Role.user, userPrompt⟩]
  { model := o.model, messages := msgs, stream := some false }

/-- `generateCompletion`: build the request, run the client; the callback
overwrites `g` with each delivered chunk content (initial value the empty
string), and the pair `(g, err)` is returned. -/
def generateCompletion (o : OllamaCompletionProcessor) (client : ChatClient)
    (systemPrompt userPrompt : GoStr) : GoStr × Option String :=
  let req := buildChatRequest o systemPrompt userPrompt
  let res := client req
  (res.1.foldl (fun _ resp => resp.messageContent) [], res.2)

/-- `computePrompt`: the user template if configured, else the payload bytes
validated as UTF-8 and returned as a string (byte-identical in Go). -/
def computePrompt (o : OllamaCompletionProcessor) (msg : Message) :
    Except String GoStr :=
  match o.userPrompt with
  | some up => up msg
  | none =>
    match msg.asBytes with
    | .error e => .error e
    | .ok b =>
      if !utf8Valid b then .error "message payload contained invalid UTF8"
      else .ok b

/-- Lines 96-103 of `Process`: `sp` is the empty string unless a system
template is configured, in which case it is the template evaluation, whose
failure is returned. -/
def resolveSystemPrompt (o : OllamaCompletionProcessor) (msg : Message) :
    Except String GoStr :=
  match o.systemPrompt with
  | some f => f msg
  | none => .ok []

/-- `Process`: resolve the system prompt, then the user prompt, then call
`generateCompletion`; on success return a one-element batch holding a copy
of the input with the generated text as payload. -/
def Process (o : OllamaCompletionProcessor) (client : ChatClient)
    (msg : Message) : Except String (List Message) :=
  match resolveSystemPrompt o msg with
  | .error e => .error e
  | .ok sp =>
    match computePrompt o msg with
    | .error e => .error e
    | .ok up =>
      let gres := generateCompletion o client sp up
      match gres.2 with
      | some e => .error e
      | none =>
        let m := (msg.copy).setBytes gres.1
        .ok [m]

/-- `Process` with the object behind the caller's `msg` pointer threaded as
explicit state: each Go statement of the body is transcribed, and a
`SetBytes` through the input pointer would update the threaded value. The
second component is the value the caller observes after the call. -/
def processWithInputState (o : OllamaCompletionProcessor)
    (client : ChatClient) (msg : Message) :
    Except String (List Message) × Message :=
  match resolveSystemPrompt o msg with
  | .error e => (.error e, msg)
  | .ok sp =>
    match computePrompt o msg with
    | .error e => (.error e, msg)
    | .ok up =>
      let gres := generateCompletion o client sp up
      match gres.2 with
      | some e => (.error e, msg)
      | none =>
        let m := (msg.copy).setBytes gres.1
        (.ok [m], msg)

end Ollama

namespace Cli

/-- A Go `context.Context`, restricted to the property the claims are
about: whether it carries a deadline. -/
structure GoContext where
  deadline : Option Nat
deriving DecidableEq

/-- `context.Background()`: no deadline, never cancelled. -/
def contextBackground : GoContext := { deadline := none }

/-- The outcome of `service.RunCLIToCode` for one run of the engine: the
exit code and terminal error it returns, and the fallback logger captured
by the `CLIOptOnLoggerInit` hook (`none` when the hook never fired; the
`Nat` identifies the logger the engine passed). -/
structure RunOutcome where
  exitCode : Int
  err : Option String
  fbLogger : Option Nat
deriving DecidableEq

/-- The externally observable calls `InitEnterpriseCLI` performs after
`RunCLIToCode` returns. -/
inductive Event where
  | fbErrorLog (logger : Nat) (msg : String)
  | stderrLine (msg : String)
  | eventStopped (err : Option String)
  | loggerClose (ctx : GoContext)
  | osExit (code : Int)
deriving DecidableEq

/-- The tail of `InitEnterpriseCLI` (lines 241-254), as the trace of calls
it performs given the outcome of the engine run: log the error through the
fallback logger if captured, else to stderr, only when the error is
non-nil; then `TriggerEventStopped(err)`; then `Close(context.Background())`;
then `os.Exit(exitCode)` only when the code is non-zero. -/
def initEnterpriseCLI (run : RunOutcome) : List Event :=
  (match run.err with
   | some e =>
     match run.fbLogger with
     | some l => [Event.fbErrorLog l e]
     | none => [Event.stderrLine e]
   | none => []) ++
  [Event.eventStopped run.err, Event.loggerClose contextBackground] ++
  (if run.exitCode ≠ 0 then [Event.osExit run.exitCode] else [])

/-- Is this a `TriggerEventStopped` call. -/
def isStopped : Event → Bool
  | .eventStopped _ => true
  | _ => false

/-- Is this a `Close` call. -/
def isClose : Event → Bool
  | .loggerClose _ => true
  | _ => false

/-- Is this a terminal-error logging call (fallback logger or stderr). -/
def isLogEvent : Event → Bool
  | .fbErrorLog _ _ => true
  | .stderrLine _ => true
  | _ => false

/-- The context passed to a `Close` call, if this event is one. -/
def closeCtxOf : Event → Option GoContext
  | .loggerClose c => some c
  | _ => none

/-- The code of an `os.Exit` call, if this event is one. -/
def exitEventCode : Event → Option Int
  | .osExit c => some c
  | _ => none

/-- The exit code of the whole process for one run: the code of the first
`os.Exit` in the trace, or 0 when the function returns normally. -/
def processExitCode (run : RunOutcome) : Int :=
  (((initEnterpriseCLI run).filterMap exitEventCode).head?).getD 0

end Cli

open Ollama Cli

/-- Overwriting fold used by the chat callback: the result is the image of
the last element, or the initial value on an empty list. -/
theorem foldl_overwrite {α β : Type} (f : α → β) (l : List α) (a : β) :
    l.foldl (fun _ r => f r) a = ((l.getLast?).map f).getD a := by
  induction l using List.reverseRecOn with
  | nil => rfl
  | append_singleton l' z _ => simp [List.foldl_append, List.getLast?_concat]

/-- C1: user prompt resolution is ordered with first match wins. If a
user-prompt template is configured, `computePrompt` returns exactly the
template evaluation on the message (even when empty, and whatever the
payload bytes are); otherwise, when the payload is valid UTF-8,
`computePrompt` returns exactly those bytes as the prompt string (Go string
conversion is byte-identical). -/
theorem computePrompt_ordered_first_match (o : OllamaCompletionProcessor)
    (msg : Message) :
    (∀ f, o.userPrompt = some f → computePrompt o msg = f msg) ∧
    (o.userPrompt = none → utf8Valid msg.payload = true →
      computePrompt o msg = .ok msg.payload) := by
  constructor
  · intro f hf
    simp [computePrompt, hf]
  · intro hnone hvalid
    simp [computePrompt, hnone, Message.asBytes, hvalid]

/-- Witness for C1: a processor whose template returns the constant "hi"
resolves to the template result even on an invalid-UTF-8 payload, and a
template-free processor round-trips a valid payload. -/
theorem computePrompt_ordered_first_match_witness :
    computePrompt
        { model := [109], userPrompt := some (fun _ => .ok [104, 105]),
          systemPrompt := none }
        { payload := [0xFF], metadata := [] } = .ok [104, 105] ∧
    computePrompt
        { model := [109], userPrompt := none, systemPrompt := none }
        { payload := [104, 0xC3, 0xA9], metadata := [] } =
      .ok [104, 0xC3, 0xA9] := by
  constructor
  · exact (computePrompt_ordered_first_match
      { model := [109], userPrompt := some (fun _ => .ok [104, 105]),
        systemPrompt := none }
      { payload := [0xFF], metadata := [] }).1 _ rfl
  · exact (computePrompt_ordered_first_match
      { model := [109], userPrompt := none, systemPrompt := none }
      { payload := [104, 0xC3, 0xA9], metadata := [] }).2 rfl (by decide)

/-- C3: for every pair of resolved prompts, the built request contains a
system entry exactly when the system prompt is non-empty (and then exactly
one, first), always ends with the single user entry carrying the user
prompt, and has its streaming flag set to disabled. -/
theorem buildChatRequest_shape (o : OllamaCompletionProcessor)
    (sp up : GoStr) :
    ((buildChatRequest o sp up).messages.filter
        (fun m => m.role == Role.system)).length =
      (if sp = [] then 0 else 1) ∧
    (buildChatRequest o sp up).messages.filter
        (fun m => m.role == Role.user) = [⟨Role.user, up⟩] ∧
    (buildChatRequest o sp up).messages.getLast? = some ⟨Role.user, up⟩ ∧
    (buildChatRequest o sp up).messages.head? =
      some (if sp = [] then ⟨Role.user, up⟩ else ⟨Role.system, sp⟩) ∧
    (buildChatRequest o sp up).stream = some false := by
  by_cases hsp : sp = [] <;>
    simp [buildChatRequest, hsp]

/-- C2 fails as stated: `Process` resolves the system prompt before the
user prompt, so a failing system-prompt template makes `Process` return the
template error, not the invalid-UTF8 error, even though no user template is
configured and the payload is invalid UTF-8. -/
theorem process_invalid_utf8_error_counterexample :
    utf8Valid [0xFF, 0xFE] = false ∧
    Process
        { model := [109], userPrompt := none,
          systemPrompt := some (fun _ => .error "system template failure") }
        (fun _ => ([], none))
        { payload := [0xFF, 0xFE], metadata := [] } =
      .error "system template failure" ∧
    Process
        { model := [109], userPrompt := none,
          systemPrompt := some (fun _ => .error "system template failure") }
        (fun _ => ([], none))
        { payload := [0xFF, 0xFE], metadata := [] } ≠
      .error "message payload contained invalid UTF8" := by
  refine ⟨by decide, rfl, ?_⟩
  intro h
  simp [Process, resolveSystemPrompt, computePrompt] at h

/-- C2 amended: for every message with no user-prompt template and an
invalid-UTF-8 payload, provided the system-prompt resolution does not
itself fail, `Process` returns exactly the error "message payload contained
invalid UTF8" with no output batch, for every client — the result does not
depend on the backend, so no backend call is observable. -/
theorem process_invalid_utf8_error (o : OllamaCompletionProcessor)
    (client : ChatClient) (msg : Message) (sp : GoStr)
    (hup : o.userPrompt = none)
    (hsys : resolveSystemPrompt o msg = .ok sp)
    (hinv : utf8Valid msg.payload = false) :
    Process o client msg = .error "message payload contained invalid UTF8" := by
  simp [Process, hsys, computePrompt, hup, Message.asBytes, hinv]

/-- Witness for C2 amended: no templates at all, payload `0xFF 0xFE`. -/
theorem process_invalid_utf8_error_witness :
    Process { model := [109], userPrompt := none, systemPrompt := none }
        (fun _ => ([⟨[42]⟩], none))
        { payload := [0xFF, 0xFE], metadata := [] } =
      .error "message payload contained invalid UTF8" :=
  process_invalid_utf8_error
    { model := [109], userPrompt := none, systemPrompt := none }
    (fun _ => ([⟨[42]⟩], none))
    { payload := [0xFF, 0xFE], metadata := [] } [] rfl rfl (by decide)

/-- C4: whenever prompt resolution (system and user) and the backend call
all succeed, `Process` returns a batch of exactly one message whose
metadata is that of the original and whose payload is the generated text. -/
theorem process_success_single_copy (o : OllamaCompletionProcessor)
    (client : ChatClient) (msg : Message) (sp up g : GoStr)
    (hsp : resolveSystemPrompt o msg = .ok sp)
    (hup : computePrompt o msg = .ok up)
    (hg : generateCompletion o client sp up = (g, none)) :
    Process o client msg = .ok [{ payload := g, metadata := msg.metadata }] := by
  simp only [Process, hsp, hup, hg, Message.copy, Message.setBytes]

/-- Witness for C4: template-free processor, payload "hi" (104 105), a
client returning one chunk with content byte 42; the output batch is one
message with payload 42 and the original metadata. -/
theorem process_success_single_copy_witness :
    Process { model := [109], userPrompt := none, systemPrompt := none }
        (fun _ => ([⟨[42]⟩], none))
        { payload := [104, 105], metadata := [("k", [1])] } =
      .ok [{ payload := [42], metadata := [("k", [1])] }] :=
  process_success_single_copy
    { model := [109], userPrompt := none, systemPrompt := none }
    (fun _ => ([⟨[42]⟩], none))
    { payload := [104, 105], metadata := [("k", [1])] }
    [] [104, 105] [42] rfl rfl rfl

/-- C5: when the client delivers its response as a sequence of chunks,
`generateCompletion` returns exactly the content of the terminal chunk
(the empty string when no chunk arrives), discarding every intermediate
chunk, together with the error the client returned after delivering the
whole sequence. -/
theorem generateCompletion_terminal_chunk (o : OllamaCompletionProcessor)
    (client : ChatClient) (sp up : GoStr) (chunks : List ChatResponse)
    (err : Option String)
    (h : client (buildChatRequest o sp up) = (chunks, err)) :
    generateCompletion o client sp up =
      (((chunks.getLast?).map ChatResponse.messageContent).getD [], err) := by
  simp only [generateCompletion, h]
  rw [foldl_overwrite]

/-- Witness for C5: three chunks with contents 1, 2, 3; the result is the
terminal content 3. -/
theorem generateCompletion_terminal_chunk_witness :
    generateCompletion
        { model := [109], userPrompt := none, systemPrompt := none }
        (fun _ => ([⟨[1]⟩, ⟨[2]⟩, ⟨[3]⟩], none)) [] [104] = ([3], none) :=
  generateCompletion_terminal_chunk
    { model := [109], userPrompt := none, systemPrompt := none }
    (fun _ => ([⟨[1]⟩, ⟨[2]⟩, ⟨[3]⟩], none)) [] [104]
    [⟨[1]⟩, ⟨[2]⟩, ⟨[3]⟩] none rfl

/-- C10: `Process` never mutates the input message: in the state-threaded
transcription of its body, the value behind the caller's message pointer
after the call equals the original in every case (the payload overwrite is
applied only to the copy), and the returned result is that of `Process`. -/
theorem process_input_unchanged (o : OllamaCompletionProcessor)
    (client : ChatClient) (msg : Message) :
    (processWithInputState o client msg).2 = msg ∧
    (processWithInputState o client msg).1 = Process o client msg := by
  constructor
  · unfold processWithInputState
    rcases resolveSystemPrompt o msg with e | sp
    · rfl
    · rcases computePrompt o msg with e | up
      · rfl
      · rcases h2 : (generateCompletion o client sp up).2 with _ | e <;> simp [h2]
  · unfold processWithInputState Process
    rcases resolveSystemPrompt o msg with e | sp
    · rfl
    · rcases computePrompt o msg with e | up
      · rfl
      · rcases h2 : (generateCompletion o client sp up).2 with _ | e <;> simp [h2]

/-- C6: in every run of the orchestrator tail, whatever the engine outcome
(error or not, fallback logger captured or not, any exit code), the trace
contains exactly one `TriggerEventStopped` call, carrying the run error,
and it occurs strictly before the first `Close` of the lifecycle logger. -/
theorem triggerStopped_exactly_once (run : RunOutcome) :
    (initEnterpriseCLI run).filter isStopped = [Event.eventStopped run.err] ∧
    ((initEnterpriseCLI run).takeWhile (fun e => !isClose e)).filter isStopped =
      [Event.eventStopped run.err] := by
  obtain ⟨code, err, fb⟩ := run
  cases err <;> cases fb <;>
    by_cases h : code = 0 <;>
      simp [initEnterpriseCLI, isStopped, isClose, h]

/-- C7: whenever the engine run ends with a terminal error, regardless of
the rest of the outcome (exit code, whether the logger-init hook fired),
exactly one logging call for it occurs: through the fallback logger when
one was captured, and directly to stderr otherwise. -/
theorem terminal_error_logged (run : RunOutcome) (e : String)
    (h : run.err = some e) :
    (initEnterpriseCLI run).filter isLogEvent =
      [match run.fbLogger with
       | some l => Event.fbErrorLog l e
       | none => Event.stderrLine e] := by
  obtain ⟨code, err, fb⟩ := run
  subst h
  cases fb <;>
    by_cases hc : code = 0 <;>
      simp [initEnterpriseCLI, isLogEvent, hc]

/-- Witness for C7: failed run with a captured fallback logger logs through
it; failed run without one writes to stderr. -/
theorem terminal_error_logged_witness :
    (initEnterpriseCLI { exitCode := 1, err := some "boom", fbLogger := some 7
      }).filter isLogEvent = [Event.fbErrorLog 7 "boom"] ∧
    (initEnterpriseCLI { exitCode := 1, err := some "boom", fbLogger := none
      }).filter isLogEvent = [Event.stderrLine "boom"] :=
  ⟨terminal_error_logged
      { exitCode := 1, err := some "boom", fbLogger := some 7 } "boom" rfl,
   terminal_error_logged
      { exitCode := 1, err := some "boom", fbLogger := none } "boom" rfl⟩

/-- C8 fails as stated: the context the orchestrator supplies to the
lifecycle-logger `Close` call is `context.Background()`, which carries no
deadline, so on a concrete run the close contexts do not all carry a
bound. -/
theorem close_context_bounded_counterexample :
    ((initEnterpriseCLI { exitCode := 0, err := none, fbLogger := none
      }).filterMap closeCtxOf).all (fun c => c.deadline.isSome) = false := by
  decide

/-- C8 amended: in every run, the orchestrator closes the lifecycle logger
exactly once, supplying `context.Background()` — a context with no deadline
or bound — so nothing in the orchestrator bounds the close call. -/
theorem close_context_is_background (run : RunOutcome) :
    (initEnterpriseCLI run).filterMap closeCtxOf = [contextBackground] ∧
    contextBackground.deadline = none := by
  obtain ⟨code, err, fb⟩ := run
  cases err <;> cases fb <;>
    by_cases h : code = 0 <;>
      simp [initEnterpriseCLI, closeCtxOf, h, contextBackground]

/-- C9: the process exit code equals the code returned by the engine run,
unchanged: a zero code means `InitEnterpriseCLI` returns normally and the
process exits 0, and a non-zero code is passed to `os.Exit` verbatim. -/
theorem exit_code_propagated (run : RunOutcome) :
    processExitCode run = run.exitCode := by
  obtain ⟨code, err, fb⟩ := run
  cases err <;> cases fb <;>
    by_cases h : code = 0 <;>
      simp [processExitCode, initEnterpriseCLI, exitEventCode, h]
